import Mathlib

/-!
Formal model of the GitHub statistics collection engine of bitpulse/github-data.

The definitions below are shallow embeddings of the collection code: the
sliding-window rate limiter and retrying API wrapper of
`src/collectors/base_collector.py`, the per-repository collector, contributor
cache, orchestration and daily aggregation of `crypto_github_collector_v4.py`,
the delta computation and activity sub-fetches of
`src/collectors/repository.py`, and the aggregation pipeline of
`src/analysis/chart_aggregator.py`.  External effects (GitHub API results,
MongoDB lookups, the wall clock) are supplied as explicit oracle values;
times are rationals measured in seconds.
-/

namespace Collector

/-- Raw counters read off the GitHub repository object inside
`collect_repository_stats` (crypto_github_collector_v4.py, lines 310-317). -/
structure RepoCounters where
  stars : Int
  forks : Int
  watchers : Int
  open_issues : Int
  size_kb : Int
  network_count : Int
deriving Repr, DecidableEq

/-- The `stats` document of a snapshot: the raw counters plus the optional
delta and growth fields added by the delta loop (lines 319-325).  An `Option`
field is `none` exactly when the corresponding dictionary key is absent from
the stored document. -/
structure Stats where
  stars : Int
  forks : Int
  watchers : Int
  open_issues : Int
  size_kb : Int
  network_count : Int
  stars_change : Option Int
  forks_change : Option Int
  watchers_change : Option Int
  open_issues_change : Option Int
  stars_growth_rate : Option ℚ
  forks_growth_rate : Option ℚ
  watchers_growth_rate : Option ℚ
  open_issues_growth_rate : Option ℚ
deriving Repr, DecidableEq

/-- The delta loop of `collect_repository_stats` (lines 319-325): for each of
the four counters `stars`, `forks`, `watchers`, `open_issues`, store
`C_change = current - previous` whenever a previous snapshot with a `stats`
block exists, and additionally `C_growth_rate = C_change / previous` when the
previous value is positive.  The same formulas appear in `_calculate_deltas`
of src/src/collectors/repository.py (lines 279-303), which also covers
`size_kb`. -/
def build_stats (cur : RepoCounters) (previous : Option RepoCounters) : Stats :=
  match previous with
  | none =>
    { stars := cur.stars, forks := cur.forks, watchers := cur.watchers,
      open_issues := cur.open_issues, size_kb := cur.size_kb,
      network_count := cur.network_count,
      stars_change := none, forks_change := none, watchers_change := none,
      open_issues_change := none, stars_growth_rate := none,
      forks_growth_rate := none, watchers_growth_rate := none,
      open_issues_growth_rate := none }
  | some prev =>
    { stars := cur.stars, forks := cur.forks, watchers := cur.watchers,
      open_issues := cur.open_issues, size_kb := cur.size_kb,
      network_count := cur.network_count,
      stars_change := some (cur.stars - prev.stars),
      forks_change := some (cur.forks - prev.forks),
      watchers_change := some (cur.watchers - prev.watchers),
      open_issues_change := some (cur.open_issues - prev.open_issues),
      stars_growth_rate :=
        if 0 < prev.stars then
          some (((cur.stars - prev.stars : Int) : ℚ) / (prev.stars : ℚ))
        else none,
      forks_growth_rate :=
        if 0 < prev.forks then
          some (((cur.forks - prev.forks : Int) : ℚ) / (prev.forks : ℚ))
        else none,
      watchers_growth_rate :=
        if 0 < prev.watchers then
          some (((cur.watchers - prev.watchers : Int) : ℚ) / (prev.watchers : ℚ))
        else none,
      open_issues_growth_rate :=
        if 0 < prev.open_issues then
          some (((cur.open_issues - prev.open_issues : Int) : ℚ) / (prev.open_issues : ℚ))
        else none }

/-- Outcome of the commit-count fetch of `_count_commits_since` (lines
383-406): either `commits.totalCount` succeeds, or it raises and the fallback
first page is fetched and its length counted, or an exception reaches the
outer handler. -/
inductive CommitCountFetch where
  | total (n : Nat)
  | firstPage (page : List String)
  | failed
deriving Repr, DecidableEq

/-- `_count_commits_since`: return `totalCount`; on its failure, the length of
the first page; on any exception escaping to the outer handler, 0. -/
def count_commits_since : CommitCountFetch → Nat
  | .total n => n
  | .firstPage page => page.length
  | .failed => 0

/-- `_get_contributor_count` (lines 408-416): the `totalCount` of the
contributor listing, or 0 when the fetch raises. -/
def get_contributor_count : Except String Nat → Nat
  | .ok n => n
  | .error _ => 0

/-- One step of the tally-dictionary update in `_get_active_contributors`:
bump the commit count of author `u`, appending a fresh entry on first sight
(Python dictionaries preserve insertion order). -/
def bumpAuthor (u : String) : List (String × Nat) → List (String × Nat)
  | [] => [(u, 1)]
  | (v, c) :: rest => if v = u then (v, c + 1) :: rest else (v, c) :: bumpAuthor u rest

/-- Insertion step of a stable descending sort by commit count, matching
Python `sorted(values, key=commits, reverse=True)`. -/
def insertByCommits (x : String × Nat) : List (String × Nat) → List (String × Nat)
  | [] => [x]
  | y :: ys => if y.2 ≤ x.2 then x :: y :: ys else y :: insertByCommits x ys

/-- Stable descending sort by commit count. -/
def sortByCommits : List (String × Nat) → List (String × Nat)
  | [] => []
  | x :: xs => insertByCommits x (sortByCommits xs)

/-- `_get_active_contributors` (lines 418-448): iterate at most the 50 most
recent commits, tally commits per author login (commits without an author are
skipped), and sort authors by commit count descending.  On any exception
return the empty list.  The oracle supplies the author login of each fetched
commit (`none` when `commit.author` is null). -/
def get_active_contributors : Except String (List (Option String)) → List (String × Nat)
  | .error _ => []
  | .ok commits =>
    sortByCommits ((commits.take 50).foldl
      (fun acc a => match a with | none => acc | some u => bumpAuthor u acc) [])

/-- Result of `github.get_repo` inside `collect_repository_stats`: success, a
`GithubException` with status 404 or 403, a `RateLimitExceededException`
carrying the reported reset time, or any other exception. -/
inductive RepoFetch where
  | ok (counters : RepoCounters)
  | notFound
  | forbidden
  | rateLimited (reset : ℚ)
  | otherError
deriving Repr, DecidableEq

/-- External results consumed by one attempt of `collect_repository_stats`:
the repository fetch, the stats block of the most recent prior snapshot for
the same repo (MongoDB lookup, `none` when no prior snapshot exists), and the
activity sub-fetches. -/
structure CollectOracle where
  fetch : RepoFetch
  previous : Option RepoCounters
  commits_24h : CommitCountFetch
  commits_7d : CommitCountFetch
  contributor_count : Except String Nat
  recent_commit_authors : Except String (List (Option String))
deriving Repr

/-- The `activity` block of a snapshot (lines 357-363). -/
structure Activity where
  commits_last_24h : Nat
  commits_last_7d : Nat
  unique_contributors_7d : Nat
  total_contributors : Nat
  top_contributors_7d : List (String × Nat)
deriving Repr, DecidableEq

/-- A collected snapshot document.  The `repo` identification block only
copies fields of the input target and is omitted. -/
structure SnapshotData where
  stats : Stats
  activity : Activity
deriving Repr, DecidableEq

/-- Result of one attempt of `collect_repository_stats`: the failed-repo set
after the attempt, the produced snapshot if any, the number of GitHub API
operations issued during the attempt, and whether the attempt ended in the
`RateLimitExceededException` handler (which sleeps until the reported reset
time plus one second and then re-invokes the whole method, lines 372-377). -/
structure CollectStep where
  failed : List String
  snapshot : Option SnapshotData
  api_calls : Nat
  retry : Bool
deriving Repr, DecidableEq

/-- One attempt of `collect_repository_stats` (lines 275-381).  `tracking` is
ENABLE_CONTRIBUTOR_TRACKING.  A repository already in the in-memory failed set
is skipped before any API operation; a 404 or 403 adds the key to the failed
set and produces no snapshot; the success path assembles the stats block with
deltas and the activity block.  API operations counted: the rate-limit check
plus `get_repo` (2), plus two operations for each commit-count sub-fetch, plus
six for the contributor sub-fetches when tracking is enabled. -/
def collect_repository_stats (tracking : Bool) (failed : List String)
    (repo_key : String) (o : CollectOracle) : CollectStep :=
  if repo_key ∈ failed then
    { failed := failed, snapshot := none, api_calls := 0, retry := false }
  else
    match o.fetch with
    | .notFound =>
      { failed := failed.insert repo_key, snapshot := none, api_calls := 2,
        retry := false }
    | .forbidden =>
      { failed := failed.insert repo_key, snapshot := none, api_calls := 2,
        retry := false }
    | .rateLimited _ =>
      { failed := failed, snapshot := none, api_calls := 2, retry := true }
    | .otherError =>
      { failed := failed, snapshot := none, api_calls := 2, retry := false }
    | .ok cur =>
      let stats := build_stats cur o.previous
      let c24 := count_commits_since o.commits_24h
      let c7 := count_commits_since o.commits_7d
      let contribCount :=
        if tracking then get_contributor_count o.contributor_count else 0
      let recent :=
        if tracking then get_active_contributors o.recent_commit_authors else []
      { failed := failed,
        snapshot := some
          { stats := stats,
            activity :=
              { commits_last_24h := c24, commits_last_7d := c7,
                unique_contributors_7d := recent.length,
                total_contributors := contribCount,
                top_contributors_7d := recent.take 10 } },
        api_calls := 6 + (if tracking then 6 else 0),
        retry := false }

/-- Concrete current counters used to instantiate hypotheses of the delta
theorem. -/
def curC1 : RepoCounters :=
  { stars := 10, forks := 5, watchers := 3, open_issues := 2, size_kb := 1,
    network_count := 1 }

/-- Concrete prior counters: positive stars and forks, zero watchers (so the
watchers growth rate must be absent). -/
def prevC1 : RepoCounters :=
  { stars := 8, forks := 5, watchers := 0, open_issues := 4, size_kb := 1,
    network_count := 1 }

/-- Concrete oracle for a successful collection with a prior snapshot. -/
def oracleC1 : CollectOracle :=
  { fetch := .ok curC1, previous := some prevC1, commits_24h := .total 3,
    commits_7d := .total 9, contributor_count := .ok 4,
    recent_commit_authors := .ok [some "alice", some "bob", some "alice"] }

end Collector

/-- C1: for every collected snapshot where a prior snapshot exists for the
same repo, each counter's `_change` field equals current minus prior, and its
`_growth_rate` field is present exactly when the prior value is positive, in
which case it equals the change divided by the prior value; when no prior
snapshot exists the snapshot carries no `_change` or `_growth_rate` fields. -/
theorem collect_delta_growth_spec (tracking : Bool) (failed : List String)
    (repo_key : String) (o : Collector.CollectOracle) (cur : Collector.RepoCounters)
    (hk : repo_key ∉ failed) (hf : o.fetch = .ok cur) :
    ((Collector.collect_repository_stats tracking failed repo_key o).snapshot.map
        (fun s => s.stats)) = some (Collector.build_stats cur o.previous) ∧
    (∀ prev : Collector.RepoCounters,
      (Collector.build_stats cur (some prev)).stars_change = some (cur.stars - prev.stars) ∧
      (Collector.build_stats cur (some prev)).forks_change = some (cur.forks - prev.forks) ∧
      (Collector.build_stats cur (some prev)).watchers_change = some (cur.watchers - prev.watchers) ∧
      (Collector.build_stats cur (some prev)).open_issues_change = some (cur.open_issues - prev.open_issues) ∧
      (Collector.build_stats cur (some prev)).stars_growth_rate =
        (if 0 < prev.stars then
          some (((cur.stars - prev.stars : Int) : ℚ) / (prev.stars : ℚ)) else none) ∧
      (Collector.build_stats cur (some prev)).forks_growth_rate =
        (if 0 < prev.forks then
          some (((cur.forks - prev.forks : Int) : ℚ) / (prev.forks : ℚ)) else none) ∧
      (Collector.build_stats cur (some prev)).watchers_growth_rate =
        (if 0 < prev.watchers then
          some (((cur.watchers - prev.watchers : Int) : ℚ) / (prev.watchers : ℚ)) else none) ∧
      (Collector.build_stats cur (some prev)).open_issues_growth_rate =
        (if 0 < prev.open_issues then
          some (((cur.open_issues - prev.open_issues : Int) : ℚ) / (prev.open_issues : ℚ)) else none)) ∧
    ((Collector.build_stats cur none).stars_change = none ∧
      (Collector.build_stats cur none).forks_change = none ∧
      (Collector.build_stats cur none).watchers_change = none ∧
      (Collector.build_stats cur none).open_issues_change = none ∧
      (Collector.build_stats cur none).stars_growth_rate = none ∧
      (Collector.build_stats cur none).forks_growth_rate = none ∧
      (Collector.build_stats cur none).watchers_growth_rate = none ∧
      (Collector.build_stats cur none).open_issues_growth_rate = none) := by
  refine ⟨?_, fun prev => ⟨rfl, rfl, rfl, rfl, rfl, rfl, rfl, rfl⟩,
    ⟨rfl, rfl, rfl, rfl, rfl, rfl, rfl, rfl⟩⟩
  obtain ⟨f, prev?, c24, c7, cc, ra⟩ := o
  obtain rfl : f = Collector.RepoFetch.ok cur := hf
  simp [Collector.collect_repository_stats, hk]

/-- Witness: the delta theorem evaluated on concrete counters.  Stars moved
from 8 to 10 (change 2, growth rate 2/8); prior watchers were 0, so the
watchers growth rate is absent. -/
theorem collect_delta_growth_spec_witness :
    (Collector.collect_repository_stats true [] "a/b" Collector.oracleC1).snapshot.map
        (fun s => (s.stats.stars_change, s.stats.stars_growth_rate,
          s.stats.watchers_growth_rate))
      = some (some 2, some ((2 : ℚ) / 8), none) := by
  obtain ⟨hA, hB, -⟩ :=
    collect_delta_growth_spec true [] "a/b" Collector.oracleC1 Collector.curC1
      (by simp) rfl
  obtain ⟨h1, -, -, -, h5, -, h7, -⟩ := hB Collector.prevC1
  have hsnap :
      (Collector.collect_repository_stats true [] "a/b" Collector.oracleC1).snapshot.map
          (fun s => s.stats)
        = some (Collector.build_stats Collector.curC1 (some Collector.prevC1)) := hA
  obtain ⟨snap, hs⟩ :
      ∃ snap,
        (Collector.collect_repository_stats true [] "a/b" Collector.oracleC1).snapshot
          = some snap := by
    cases h :
        (Collector.collect_repository_stats true [] "a/b" Collector.oracleC1).snapshot with
    | none => rw [h] at hsnap; simp at hsnap
    | some s => exact ⟨s, rfl⟩
  rw [hs] at hsnap ⊢
  simp only [Option.map_some', Option.some_inj] at hsnap ⊢
  rw [hsnap, h1, h5, h7]
  norm_num [Collector.curC1, Collector.prevC1]

namespace Collector

/-- Concrete oracle whose repository fetch raises a 404. -/
def oracle404 : CollectOracle :=
  { fetch := .notFound, previous := none, commits_24h := .total 0,
    commits_7d := .total 0, contributor_count := .ok 0,
    recent_commit_authors := .ok [] }

end Collector

/-- C5: a 404 or 403 on the repository fetch is a permanent failure: the
target's key is added to the in-memory failed set and no snapshot is
produced; any later attempt for the same key in the same run returns
immediately, yielding no snapshot, issuing zero API operations and leaving
the state unchanged, whatever the API would have answered. -/
theorem collect_permanent_failure_spec (tracking : Bool) (failed : List String)
    (repo_key : String) (o o2 : Collector.CollectOracle)
    (hk : repo_key ∉ failed)
    (hf : o.fetch = .notFound ∨ o.fetch = .forbidden) :
    (Collector.collect_repository_stats tracking failed repo_key o).snapshot = none ∧
    (Collector.collect_repository_stats tracking failed repo_key o).failed
      = failed.insert repo_key ∧
    repo_key ∈ (Collector.collect_repository_stats tracking failed repo_key o).failed ∧
    Collector.collect_repository_stats tracking
        (Collector.collect_repository_stats tracking failed repo_key o).failed repo_key o2
      = { failed := (Collector.collect_repository_stats tracking failed repo_key o).failed,
          snapshot := none, api_calls := 0, retry := false } := by
  obtain ⟨f, prev?, c24, c7, cc, ra⟩ := o
  rcases hf with hf | hf <;>
    obtain rfl : f = _ := hf <;>
      refine ⟨by simp [Collector.collect_repository_stats, hk], ?_, ?_, ?_⟩ <;>
        simp [Collector.collect_repository_stats, hk, List.mem_insert_self]

/-- Witness: after a 404 for `a/b`, a second attempt (with an oracle that
would succeed) returns immediately with no snapshot and zero API calls. -/
theorem collect_permanent_failure_spec_witness :
    Collector.collect_repository_stats true
        (Collector.collect_repository_stats true [] "a/b" Collector.oracle404).failed
        "a/b" Collector.oracleC1
      = { failed := (Collector.collect_repository_stats true [] "a/b" Collector.oracle404).failed,
          snapshot := none, api_calls := 0, retry := false } :=
  (collect_permanent_failure_spec true [] "a/b" Collector.oracle404 Collector.oracleC1
    (by simp) (Or.inl rfl)).2.2.2

namespace RepoPy

/-- A closed pull request as consumed by `_get_pr_stats`
(src/src/collectors/repository.py): its `closed_at` and `merged_at`
timestamps (absent when null). -/
structure PullReq where
  closed_at : Option ℚ
  merged_at : Option ℚ
deriving Repr, DecidableEq

/-- Return value of `_get_pr_stats`. -/
structure PRStats where
  open_pull_requests : Nat
  prs_closed_7d : Nat
  prs_merged_7d : Nat
deriving Repr, DecidableEq

/-- `_get_pr_stats` (repository.py lines 165-199): the open-PR total count
plus, among the 50 most recently updated closed PRs, those closed (resp.
merged) after `week_ago`.  If either fetch raises, the whole block yields
zeroed fields. -/
def get_pr_stats (week_ago : ℚ) (openCount : Except String Nat)
    (closedPRs : Except String (List PullReq)) : PRStats :=
  match openCount, closedPRs with
  | .ok o, .ok cs =>
    { open_pull_requests := o,
      prs_closed_7d :=
        ((cs.take 50).filter (fun pr =>
          match pr.closed_at with
          | some t => decide (week_ago < t)
          | none => false)).length,
      prs_merged_7d :=
        ((cs.take 50).filter (fun pr =>
          match pr.merged_at with
          | some t => decide (week_ago < t)
          | none => false)).length }
  | _, _ => { open_pull_requests := 0, prs_closed_7d := 0, prs_merged_7d := 0 }

/-- A closed issue as consumed by `_get_issue_stats`: timestamps and whether
the issue is really a pull request. -/
structure Issue where
  closed_at : Option ℚ
  created_at : Option ℚ
  pull_request : Bool
deriving Repr, DecidableEq

/-- Return value of `_get_issue_stats`.  Python applies `round(x, 2)` to the
average resolution time; that float-presentation step is not modeled and the
exact rational mean is kept. -/
structure IssueStats where
  open_issues_count : Nat
  issues_closed_7d : Nat
  avg_issue_resolution_hours : ℚ
deriving Repr, DecidableEq

/-- `_get_issue_stats` (repository.py lines 201-244): the open-issue total
count, the non-PR issues among the 50 most recent closed ones that were
closed after `week_ago`, and the mean resolution time in hours over the 20
most recent closed non-PR issues (0 when there are none).  If a fetch raises,
the whole block yields zeroed fields. -/
def get_issue_stats (week_ago : ℚ) (openCount : Except String Nat)
    (closedIssues : Except String (List Issue)) : IssueStats :=
  match openCount, closedIssues with
  | .ok o, .ok cs =>
    let resolution_times : List ℚ :=
      (cs.take 20).filterMap (fun i =>
        match i.closed_at, i.created_at with
        | some c, some cr => if i.pull_request then none else some ((c - cr) / 3600)
        | _, _ => none)
    { open_issues_count := o,
      issues_closed_7d :=
        ((cs.take 50).filter (fun i =>
          (match i.closed_at with
           | some t => decide (week_ago < t)
           | none => false) && !i.pull_request)).length,
      avg_issue_resolution_hours :=
        if resolution_times = [] then 0
        else resolution_times.sum / resolution_times.length }
  | _, _ =>
    { open_issues_count := 0, issues_closed_7d := 0,
      avg_issue_resolution_hours := 0 }

end RepoPy

namespace Collector

/-- Oracle in which the repository fetch succeeds but every activity
sub-fetch raises. -/
def failingSubfetchOracle (cur : RepoCounters) (prev : Option RepoCounters)
    (e : String) : CollectOracle :=
  { fetch := .ok cur, previous := prev, commits_24h := .failed,
    commits_7d := .failed, contributor_count := .error e,
    recent_commit_authors := .error e }

/-- Oracle in which every activity sub-fetch succeeds with genuinely zero
activity. -/
def zeroSubfetchOracle (cur : RepoCounters) (prev : Option RepoCounters) :
    CollectOracle :=
  { fetch := .ok cur, previous := prev, commits_24h := .total 0,
    commits_7d := .total 0, contributor_count := .ok 0,
    recent_commit_authors := .ok [] }

end Collector

/-- C10: when an activity sub-fetch raises, the failing metric is replaced by
a zero or empty default (0 commits, empty contributor list, zeroed PR and
issue fields), the failure is not propagated, and the resulting snapshot is
complete and identical to one collected with genuinely zero activity. -/
theorem subfetch_failure_defaults_spec (tracking : Bool) (failed : List String)
    (repo_key : String) (cur : Collector.RepoCounters)
    (prev : Option Collector.RepoCounters) (e : String) (w : ℚ)
    (oc : Except String Nat) (cp : Except String (List RepoPy.PullReq))
    (ci : Except String (List RepoPy.Issue))
    (hk : repo_key ∉ failed) :
    Collector.count_commits_since .failed = 0 ∧
    Collector.get_contributor_count (.error e) = 0 ∧
    Collector.get_active_contributors (.error e) = [] ∧
    RepoPy.get_pr_stats w (.error e) cp
      = { open_pull_requests := 0, prs_closed_7d := 0, prs_merged_7d := 0 } ∧
    RepoPy.get_pr_stats w oc (.error e)
      = { open_pull_requests := 0, prs_closed_7d := 0, prs_merged_7d := 0 } ∧
    RepoPy.get_pr_stats w (.ok 0) (.ok [])
      = { open_pull_requests := 0, prs_closed_7d := 0, prs_merged_7d := 0 } ∧
    RepoPy.get_issue_stats w (.error e) ci
      = { open_issues_count := 0, issues_closed_7d := 0,
          avg_issue_resolution_hours := 0 } ∧
    RepoPy.get_issue_stats w oc (.error e)
      = { open_issues_count := 0, issues_closed_7d := 0,
          avg_issue_resolution_hours := 0 } ∧
    RepoPy.get_issue_stats w (.ok 0) (.ok [])
      = { open_issues_count := 0, issues_closed_7d := 0,
          avg_issue_resolution_hours := 0 } ∧
    Collector.collect_repository_stats tracking failed repo_key
        (Collector.failingSubfetchOracle cur prev e)
      = Collector.collect_repository_stats tracking failed repo_key
          (Collector.zeroSubfetchOracle cur prev) ∧
    (Collector.collect_repository_stats tracking failed repo_key
        (Collector.failingSubfetchOracle cur prev e)).snapshot
      = some
          { stats := Collector.build_stats cur prev,
            activity :=
              { commits_last_24h := 0, commits_last_7d := 0,
                unique_contributors_7d := 0, total_contributors := 0,
                top_contributors_7d := [] } } := by
  refine ⟨rfl, rfl, rfl, ?_, ?_, ?_, ?_, ?_, ?_, ?_, ?_⟩
  · rfl
  · cases oc <;> rfl
  · rfl
  · rfl
  · cases oc <;> rfl
  · rfl
  · cases tracking <;>
      simp [Collector.collect_repository_stats, hk, Collector.failingSubfetchOracle,
        Collector.zeroSubfetchOracle, Collector.count_commits_since,
        Collector.get_contributor_count, Collector.get_active_contributors,
        Collector.sortByCommits]
  · cases tracking <;>
      simp [Collector.collect_repository_stats, hk, Collector.failingSubfetchOracle,
        Collector.count_commits_since, Collector.get_contributor_count,
        Collector.get_active_contributors, Collector.sortByCommits]

/-- Witness: with every sub-fetch failing, the collector still produces a
complete snapshot with zero activity for a fresh repository. -/
theorem subfetch_failure_defaults_spec_witness :
    (Collector.collect_repository_stats true [] "a/b"
        (Collector.failingSubfetchOracle Collector.curC1 none "boom")).snapshot
      = some
          { stats := Collector.build_stats Collector.curC1 none,
            activity :=
              { commits_last_24h := 0, commits_last_7d := 0,
                unique_contributors_7d := 0, total_contributors := 0,
                top_contributors_7d := [] } } :=
  (subfetch_failure_defaults_spec true [] "a/b" Collector.curC1 none "boom" 0
    (.ok 0) (.ok []) (.ok []) (by simp)).2.2.2.2.2.2.2.2.2.2

namespace ApiRetry

/-- One response of the remote API as seen by `_make_api_call`
(src/src/collectors/base_collector.py lines 63-86): success, a
`RateLimitExceededException` with its reset time, a `GithubException`, or any
other exception (the latter two are re-raised). -/
inductive ApiResponse (α : Type) where
  | ok (value : α)
  | rateLimited (reset : ℚ)
  | githubError
  | otherError

/-- Fuel-indexed unfolding of the recursive `_make_api_call`: on success the
result is returned after recording the request; on
`RateLimitExceededException` the method sleeps until the reported reset time
plus one second and then calls itself recursively with the same arguments;
other exceptions are re-raised (`Except.error`).  The recursion carries no
retry counter or elapsed-time ceiling, so its unfolding is indexed by `fuel`;
`none` means the call has not completed within `fuel` attempts. -/
def make_api_call {α : Type} (responses : Nat → ApiResponse α) :
    Nat → Option (Except Unit α)
  | 0 => none
  | fuel + 1 =>
    match responses 0 with
    | .ok v => some (.ok v)
    | .githubError => some (.error ())
    | .otherError => some (.error ())
    | .rateLimited _ => make_api_call (fun k => responses (k + 1)) fuel

/-- Fuel-indexed unfolding of the retry in v4 `collect_repository_stats`
(lines 372-377): when an attempt ends in the rate-limit handler the method
sleeps and re-invokes itself on the same target; `oracles k` supplies the
API results of the k-th attempt.  `none` means the call has not completed
within `fuel` attempts. -/
def collect_with_retries (tracking : Bool) (failed : List String)
    (repo_key : String) (oracles : Nat → Collector.CollectOracle) :
    Nat → Option (List String × Option Collector.SnapshotData)
  | 0 => none
  | n + 1 =>
    let st := Collector.collect_repository_stats tracking failed repo_key (oracles 0)
    if st.retry then
      collect_with_retries tracking failed repo_key (fun k => oracles (k + 1)) n
    else some (st.failed, st.snapshot)

/-- A response stream in which every attempt hits the remote rate limit. -/
def alwaysRateLimited : Nat → ApiResponse Unit := fun _ => .rateLimited 0

/-- A collection oracle whose repository fetch always raises
`RateLimitExceededException`. -/
def rateLimitedOracle : Collector.CollectOracle :=
  { fetch := .rateLimited 0, previous := none, commits_24h := .failed,
    commits_7d := .failed, contributor_count := .error "rate limit",
    recent_commit_authors := .error "rate limit" }

end ApiRetry

/-- C3 (code evaluation at the failing input): against a response sequence in
which every attempt reports rate-limit exhaustion, neither `_make_api_call`
nor the v4 collector's retry completes within any number of attempts: the
retry is an unbounded recursive self-call, with no retry count or
elapsed-time ceiling bounding it. -/
theorem rate_limit_retry_unbounded :
    (∀ fuel, ApiRetry.make_api_call ApiRetry.alwaysRateLimited fuel = none) ∧
    (∀ fuel, ApiRetry.collect_with_retries true [] "a/b"
        (fun _ => ApiRetry.rateLimitedOracle) fuel = none) := by
  constructor
  · intro fuel
    induction fuel with
    | zero => rfl
    | succ n ih => simpa [ApiRetry.make_api_call, ApiRetry.alwaysRateLimited] using ih
  · intro fuel
    induction fuel with
    | zero => rfl
    | succ n ih =>
      simpa [ApiRetry.collect_with_retries, Collector.collect_repository_stats,
        ApiRetry.rateLimitedOracle] using ih

namespace RateLimiter

/-- State of `RateLimiter` (src/src/collectors/base_collector.py lines
14-42): the request budget, the sliding window length (one hour, kept in
seconds) and the ordered list of recorded request timestamps. -/
structure State where
  max_requests : Nat
  window : ℚ
  requests : List ℚ
deriving Repr

/-- `RateLimiter.__init__`: `max_requests = int(max_requests_per_hour *
buffer)` (truncation of a non-negative product is the floor), the window is
one hour and no requests are recorded yet. -/
def mkState (max_requests_per_hour : Nat) (buffer : ℚ) : State :=
  { max_requests := (⌊(max_requests_per_hour : ℚ) * buffer⌋).toNat,
    window := 3600, requests := [] }

/-- Python `min` over a list; `none` for the empty list (where Python would
raise `ValueError`). -/
def listMin : List ℚ → Option ℚ
  | [] => none
  | x :: xs => some (xs.foldl min x)

/-- `wait_if_needed` (lines 22-38): drop recorded requests that fell out of
the window; if the remaining count is at capacity, sleep until the oldest
in-window request exits the window.  Returns the new state and the time at
which the call returns (`now` when no sleep happens).  The `none` branch of
`listMin` is unreachable when `max_requests > 0`. -/
def wait_if_needed (s : State) (now : ℚ) : State × ℚ :=
  let pruned := s.requests.filter (fun t => decide (now - t < s.window))
  let s' : State := { s with requests := pruned }
  if s.max_requests ≤ pruned.length then
    match listMin pruned with
    | some oldest =>
      let wait_until := oldest + s.window
      (s', if 0 < wait_until - now then wait_until else now)
    | none => (s', now)
  else (s', now)

/-- `record_request` (lines 40-42): append the completion timestamp. -/
def record_request (s : State) (t : ℚ) : State :=
  { s with requests := s.requests ++ [t] }

/-- One rate-limiter-gated API call as performed by `_make_api_call`:
`wait_if_needed` followed by `record_request` at the time the wait returns
(the latency of the call itself is absorbed into the next arrival time).
Returns the new state and the recorded timestamp. -/
def apiCall (s : State) (now : ℚ) : State × ℚ :=
  let p := wait_if_needed s now
  (record_request p.1 p.2, p.2)

/-- A run of rate-limiter-gated calls at the given arrival times. -/
def runCalls (s : State) : List ℚ → State
  | [] => s
  | t :: ts => runCalls (apiCall s t).1 ts

/-- Arrival times are admissible when every call arrives no earlier than each
timestamp already recorded (time moves forward between calls). -/
def arrivalsOK (s : State) : List ℚ → Bool
  | [] => true
  | t :: ts => s.requests.all (fun x => decide (x ≤ t)) && arrivalsOK (apiCall s t).1 ts

/-- Number of recorded timestamps inside the trailing interval `(T - w, T]`. -/
def inWindowCount (w T : ℚ) (reqs : List ℚ) : Nat :=
  (reqs.filter (fun t => decide (T - t < w) && decide (t ≤ T))).length

theorem foldl_min_mem (x : ℚ) (xs : List ℚ) : xs.foldl min x ∈ x :: xs := by
  induction xs generalizing x with
  | nil => simp
  | cons y ys ih =>
    simp only [List.foldl_cons]
    rcases List.mem_cons.mp (ih (min x y)) with h | h
    · rw [h]
      rcases min_choice x y with hm | hm <;> rw [hm] <;> simp
    · simp [h]

theorem foldl_min_le (x : ℚ) (xs : List ℚ) :
    ∀ a ∈ x :: xs, xs.foldl min x ≤ a := by
  induction xs generalizing x with
  | nil =>
    intro a ha
    rcases List.mem_cons.mp ha with rfl | h
    · exact le_refl a
    · cases h
  | cons y ys ih =>
    intro a ha
    simp only [List.foldl_cons]
    have h1 := ih (min x y)
    rcases List.mem_cons.mp ha with rfl | ha2
    · exact le_trans (h1 _ (List.mem_cons_self _ _)) (min_le_left _ _)
    rcases List.mem_cons.mp ha2 with rfl | ha3
    · exact le_trans (h1 _ (List.mem_cons_self _ _)) (min_le_right _ _)
    · exact h1 _ (List.mem_cons.mpr (Or.inr ha3))

theorem listMin_mem {l : List ℚ} {m : ℚ} (h : listMin l = some m) : m ∈ l := by
  cases l with
  | nil => cases h
  | cons x xs =>
    simp only [listMin, Option.some_inj] at h
    rw [← h]
    exact foldl_min_mem x xs

theorem listMin_le {l : List ℚ} {m : ℚ} (h : listMin l = some m) :
    ∀ a ∈ l, m ≤ a := by
  cases l with
  | nil => cases h
  | cons x xs =>
    simp only [listMin, Option.some_inj] at h
    rw [← h]
    exact foldl_min_le x xs

theorem filter_length_lt {α : Type} {p : α → Bool} {l : List α} {x : α}
    (hx : x ∈ l) (hpx : p x = false) : (l.filter p).length < l.length := by
  induction l with
  | nil => cases hx
  | cons a as ih =>
    rcases List.mem_cons.mp hx with rfl | hx2
    · simp only [List.filter_cons, hpx, List.length_cons]
      exact Nat.lt_succ_of_le (List.length_filter_le p as)
    · cases hpa : p a <;> simp only [List.filter_cons, hpa, List.length_cons]
      · exact Nat.lt_succ_of_le (List.length_filter_le p as)
      · exact Nat.succ_lt_succ (ih hx2)

theorem wait_if_needed_fst (s : State) (now : ℚ) :
    (wait_if_needed s now).1
      = { s with requests := s.requests.filter (fun t => decide (now - t < s.window)) } := by
  unfold wait_if_needed
  dsimp only
  split
  · split <;> rfl
  · rfl

theorem apiCall_fst (s : State) (now : ℚ) :
    (apiCall s now).1
      = { s with requests :=
            s.requests.filter (fun t => decide (now - t < s.window)) ++ [(apiCall s now).2] } := by
  show (record_request (wait_if_needed s now).1 (wait_if_needed s now).2, _).1 = _
  rw [wait_if_needed_fst]
  rfl

/-- Key step: one gated call preserves the sliding-window bound, provided the
budget is positive and the call arrives no earlier than every recorded
timestamp. -/
theorem apiCall_window_bound (s : State) (now : ℚ)
    (hpos : 0 < s.max_requests)
    (hle : ∀ x ∈ s.requests, x ≤ now)
    (hB : ∀ T, inWindowCount s.window T s.requests ≤ s.max_requests) :
    ∀ T, inWindowCount s.window T (apiCall s now).1.requests ≤ s.max_requests := by
  intro T
  rw [apiCall_fst]
  set w := s.window with hw
  set pruned := s.requests.filter (fun t => decide (now - t < w)) with hpruned
  have hsubp : ∀ (q : ℚ → Bool), (pruned.filter q).length ≤ (s.requests.filter q).length :=
    fun q => ((List.filter_sublist _).filter q).length_le
  have hprlen : pruned.length = inWindowCount w now s.requests := by
    rw [inWindowCount, hpruned]
    have : ∀ x ∈ s.requests,
        (decide (now - x < w)) = (decide (now - x < w) && decide (x ≤ now)) := by
      intro x hx
      have : x ≤ now := hle x hx
      simp [this]
    rw [List.filter_congr this]
  have hprcap : pruned.length ≤ s.max_requests := by
    rw [hprlen]; exact hB now
  -- the recorded timestamp
  set r := (apiCall s now).2 with hr
  show inWindowCount w T (pruned ++ [r]) ≤ s.max_requests
  rw [inWindowCount, List.filter_append, List.length_append]
  by_cases hin : (decide (T - r < w) && decide (r ≤ T)) = true
  swap
  · -- the new timestamp is outside the window ending at T
    have h0 : (List.filter (fun t => decide (T - t < w) && decide (t ≤ T)) [r]).length = 0 := by
      simp only [List.filter, hin]
      rfl
    rw [h0]
    have := hsubp (fun t => decide (T - t < w) && decide (t ≤ T))
    have h2 : inWindowCount w T s.requests ≤ s.max_requests := hB T
    rw [inWindowCount] at h2
    omega
  · have h1 : (List.filter (fun t => decide (T - t < w) && decide (t ≤ T)) [r]).length = 1 := by
      simp only [List.filter, hin]
      rfl
    rw [h1]
    -- was the limiter at capacity when the call arrived?
    by_cases hcap : s.max_requests ≤ pruned.length
    · -- at capacity: the call slept until the oldest in-window request
      -- left the window, so that request is excluded from (T - w, T]
      have hne : pruned ≠ [] := by
        intro hnil
        rw [hnil] at hcap
        simp at hcap
        omega
      obtain ⟨oldest, hmin⟩ : ∃ m, listMin pruned = some m := by
        cases hp : pruned with
        | nil => exact absurd hp hne
        | cons a as => exact ⟨as.foldl min a, by rw [listMin]⟩
      have hmem : oldest ∈ pruned := listMin_mem hmin
      have holdw : now - oldest < w := by
        have := List.of_mem_filter hmem
        simpa using this
      have hrval : r = oldest + w := by
        rw [hr]
        show (wait_if_needed s now).2 = oldest + w
        unfold wait_if_needed
        dsimp only
        rw [← hpruned, ← hw, if_pos hcap, hmin]
        dsimp only
        rw [if_pos (by linarith)]
      -- oldest + w = r ≤ T, hence T - oldest ≥ w: oldest is dropped
      have hrT : r ≤ T := by
        have := hin
        simp only [Bool.and_eq_true, decide_eq_true_eq] at this
        exact this.2
      have holdout : (fun t => decide (T - t < w) && decide (t ≤ T)) oldest = false := by
        have : ¬(T - oldest < w) := by rw [hrval] at hrT; push_neg; linarith
        simp [this]
      have hlt :=
        filter_length_lt (p := fun t => decide (T - t < w) && decide (t ≤ T)) hmem holdout
      omega
    · -- under capacity: even with the new timestamp the count stays within budget
      have := List.length_filter_le (fun t => decide (T - t < w) && decide (t ≤ T)) pruned
      omega

/-- The window bound holds after any admissible run from a state satisfying
it. -/
theorem runCalls_window_bound (arr : List ℚ) (s : State)
    (hpos : 0 < s.max_requests)
    (hB : ∀ T, inWindowCount s.window T s.requests ≤ s.max_requests)
    (hArr : arrivalsOK s arr = true) :
    ∀ T, inWindowCount s.window T (runCalls s arr).requests ≤ s.max_requests := by
  induction arr generalizing s with
  | nil => simpa [runCalls] using hB
  | cons t ts ih =>
    simp only [arrivalsOK, Bool.and_eq_true, List.all_eq_true, decide_eq_true_eq] at hArr
    obtain ⟨h1, h2⟩ := hArr
    have hstep := apiCall_window_bound s t hpos h1 hB
    have hwnd : (apiCall s t).1.window = s.window := by rw [apiCall_fst]
    have hmax : (apiCall s t).1.max_requests = s.max_requests := by rw [apiCall_fst]
    have := ih (apiCall s t).1 (by rw [hmax]; exact hpos)
      (by rw [hwnd, hmax]; exact hstep) h2
    rw [hwnd, hmax] at this
    simpa [runCalls] using this

end RateLimiter

namespace RateLimiter

/-- At capacity, `wait_if_needed` sleeps exactly until the oldest in-window
request exits the window: the wait returns at `oldest + window`. -/
theorem wait_at_capacity (s : State) (now : ℚ)
    (hcap : s.max_requests ≤
      (s.requests.filter (fun t => decide (now - t < s.window))).length)
    (hpos : 0 < s.max_requests) :
    ∃ oldest,
      listMin (s.requests.filter (fun t => decide (now - t < s.window))) = some oldest ∧
      (∀ x ∈ s.requests.filter (fun t => decide (now - t < s.window)), oldest ≤ x) ∧
      now < oldest + s.window ∧
      (wait_if_needed s now).2 = oldest + s.window := by
  set pruned := s.requests.filter (fun t => decide (now - t < s.window)) with hpruned
  have hne : pruned ≠ [] := by
    intro hnil
    rw [hnil] at hcap
    simp at hcap
    omega
  obtain ⟨oldest, hmin⟩ : ∃ m, listMin pruned = some m := by
    cases hp : pruned with
    | nil => exact absurd hp hne
    | cons a as => exact ⟨as.foldl min a, by rw [listMin]⟩
  have hmem : oldest ∈ pruned := listMin_mem hmin
  have holdw : now - oldest < s.window := by
    have := List.of_mem_filter hmem
    simpa using this
  refine ⟨oldest, hmin, listMin_le hmin, by linarith, ?_⟩
  unfold wait_if_needed
  dsimp only
  rw [← hpruned, if_pos hcap, hmin]
  dsimp only
  rw [if_pos (by linarith)]

end RateLimiter

/-- C2: starting from a fresh rate limiter with a positive budget, after any
admissible sequence of gated calls no trailing window-length interval ever
contains more than `max_requests` recorded timestamps; and whenever the
in-window count is at capacity, `wait_if_needed` sleeps exactly until the
oldest in-window entry exits the window. -/
theorem rate_limiter_spec (s : RateLimiter.State) (arr : List ℚ)
    (hpos : 0 < s.max_requests)
    (hinit : s.requests = [])
    (hArr : RateLimiter.arrivalsOK s arr = true) :
    (∀ T, RateLimiter.inWindowCount s.window T
        (RateLimiter.runCalls s arr).requests ≤ s.max_requests) ∧
    (∀ s2 : RateLimiter.State, ∀ now : ℚ, 0 < s2.max_requests →
      s2.max_requests ≤
        (s2.requests.filter (fun t => decide (now - t < s2.window))).length →
      ∃ oldest,
        RateLimiter.listMin
            (s2.requests.filter (fun t => decide (now - t < s2.window))) = some oldest ∧
        (∀ x ∈ s2.requests.filter (fun t => decide (now - t < s2.window)), oldest ≤ x) ∧
        now < oldest + s2.window ∧
        (RateLimiter.wait_if_needed s2 now).2 = oldest + s2.window) := by
  constructor
  · refine RateLimiter.runCalls_window_bound arr s hpos ?_ hArr
    intro T
    rw [hinit]
    simp [RateLimiter.inWindowCount]
  · intro s2 now h2 hcap
    exact RateLimiter.wait_at_capacity s2 now hcap h2

/-- Witness: budget 2, window 3600.  Calls arrive at times 0, 1 and 2; the
third finds the window at capacity and is recorded only at time 3600, when
the request recorded at time 0 leaves the window, so at time 2 at most two
recorded timestamps lie in the trailing hour. -/
theorem rate_limiter_spec_witness :
    RateLimiter.inWindowCount 3600 2
        (RateLimiter.runCalls ⟨2, 3600, []⟩ [0, 1, 2]).requests ≤ 2 ∧
    (RateLimiter.wait_if_needed ⟨2, 3600, [0, 1]⟩ 2).2 = 3600 := by
  have h := rate_limiter_spec ⟨2, 3600, []⟩ [0, 1, 2] (by norm_num) rfl
    (by norm_num [RateLimiter.arrivalsOK, RateLimiter.apiCall,
      RateLimiter.wait_if_needed, RateLimiter.record_request, RateLimiter.listMin])
  refine ⟨h.1 2, ?_⟩
  obtain ⟨oldest, hm, -, -, hw⟩ := h.2 ⟨2, 3600, [0, 1]⟩ 2 (by norm_num)
    (by norm_num)
  have hm0 : oldest = 0 := by
    norm_num [RateLimiter.listMin] at hm
    exact hm.symm
  rw [hw, hm0]
  norm_num

namespace Orchestrator

/-- The secondary-tier loop of `collect_all_repositories`
(crypto_github_collector_v4.py lines 625-647), counting how many secondary
targets get collected.  `i` is the loop index; `recheck k` is the
`core.remaining` value reported by the rate-limit probe made before target
index `5 * k` (the loop re-probes whenever `i % 5 == 0` and stops the batch
when the probe reports fewer than 50 remaining).  The cooperative
cancellation flag is taken to stay set throughout (no shutdown mid-run).
Recursion is structural on the number of targets left. -/
def secondaryLoop (recheck : Nat → Nat) : Nat → Nat → Nat
  | _, 0 => 0
  | i, m + 1 =>
    if i % 5 = 0 ∧ recheck (i / 5) < 50 then 0
    else 1 + secondaryLoop recheck (i + 1) m

/-- The secondary-tier phase of `collect_all_repositories` (lines 619-649):
after the primary tier the remaining rate-limit budget is fetched; the
secondary repositories are iterated only when it exceeds 100, otherwise the
whole tier is skipped for this run.  Returns how many of the `batch`
secondary targets are collected. -/
def secondary_collections (remaining : Nat) (recheck : Nat → Nat)
    (batch : Nat) : Nat :=
  if 100 < remaining then secondaryLoop recheck 0 batch else 0

/-- When every mid-batch probe reports at least 50 remaining, the loop
collects every target. -/
theorem secondaryLoop_all (recheck : Nat → Nat) (h : ∀ k, 50 ≤ recheck k) :
    ∀ m i, secondaryLoop recheck i m = m := by
  intro m
  induction m with
  | zero => intro i; rfl
  | succ n ih =>
    intro i
    rw [secondaryLoop, if_neg (fun hc => absurd hc.2 (Nat.not_lt.mpr (h _)))]
    rw [ih (i + 1)]
    omega

end Orchestrator

/-- C4 counterexample: with remaining budget 200, a secondary batch of 50 and
every mid-batch probe also reporting 200, the run collects all 50 secondary
targets, although `200 ≤ 50 + 100` is false and the claim asserts the
secondary tier is skipped entirely in this scenario. -/
theorem secondary_skip_cex :
    Orchestrator.secondary_collections 200 (fun _ => 200) 50 = 50 ∧
    Orchestrator.secondary_collections 200 (fun _ => 200) 50 ≠ 0 := by
  have h50 :
      Orchestrator.secondary_collections 200 (fun _ => 200) 50 = 50 := by
    rw [Orchestrator.secondary_collections, if_pos (by omega)]
    exact Orchestrator.secondaryLoop_all (fun _ => 200) (fun k => by norm_num) 50 0
  exact ⟨h50, by omega⟩

/-- C4 (amended): the secondary tier is skipped entirely exactly when the
remaining budget after the primary tier is at most 100 — a fixed threshold
independent of the batch size and of any margin; when the budget exceeds 100
and every mid-batch probe reports at least 50 remaining, every secondary
target is collected (with a lower probe reading the batch stops early,
partially collected). -/
theorem secondary_threshold_spec (remaining : Nat) (recheck : Nat → Nat)
    (batch : Nat) :
    (remaining ≤ 100 → Orchestrator.secondary_collections remaining recheck batch = 0) ∧
    (100 < remaining → (∀ k, 50 ≤ recheck k) →
      Orchestrator.secondary_collections remaining recheck batch = batch) := by
  constructor
  · intro h
    rw [Orchestrator.secondary_collections, if_neg (by omega)]
  · intro h hk
    rw [Orchestrator.secondary_collections, if_pos h]
    exact Orchestrator.secondaryLoop_all recheck hk batch 0

/-- Witness: budget 100 skips the three secondary targets; budget 200 with
healthy probes collects all three. -/
theorem secondary_threshold_spec_witness :
    Orchestrator.secondary_collections 100 (fun _ => 200) 3 = 0 ∧
    Orchestrator.secondary_collections 200 (fun _ => 200) 3 = 3 :=
  ⟨(secondary_threshold_spec 100 (fun _ => 200) 3).1 (by omega),
   (secondary_threshold_spec 200 (fun _ => 200) 3).2 (by omega) (fun k => by norm_num)⟩

namespace Contributors

/-- Detailed profile fields fetched by `update_contributor_profiles`
(crypto_github_collector_v4.py lines 537-555); a representative subset. -/
structure Profile where
  name : String
  followers : Int
  public_repos : Int
deriving Repr, DecidableEq

/-- A document of the `github_contributors` collection.  `profile_updated`
is absent until first written; `profile` carries the detailed fields once
fetched; `profile_error` records the reason of a failed detailed fetch. -/
structure ContribRecord where
  username : String
  avatar_url : String
  contributions : Int
  last_seen : ℚ
  needs_update : Bool
  profile_updated : Option ℚ
  profile : Option Profile
  profile_error : Option String
deriving Repr, DecidableEq

/-- The cache check of `_store_basic_contributor_info` (lines 468-478):
`needs_update` is true unless an existing record carries a `profile_updated`
timestamp strictly younger than the cache TTL.  The previously stored
`needs_update` flag is not consulted. -/
def compute_needs_update (now ttl : ℚ) (existing : Option ContribRecord) : Bool :=
  match existing with
  | none => true
  | some r =>
    match r.profile_updated with
    | none => true
    | some pu => !(decide (now - pu < ttl))

/-- One per-contributor upsert of `_store_basic_contributor_info` (lines
480-506; a `$set` with upsert): the basic fields (avatar, contribution count,
last_seen) are refreshed on every observation; `needs_update` is recomputed;
and under profile depth `basic` the update also sets `profile_updated := now`
whenever `needs_update` is true.  Fields absent from the update document keep
their stored values. -/
def store_basic (depth : String) (now ttl : ℚ) (username avatar : String)
    (contributions : Int) (existing : Option ContribRecord) : ContribRecord :=
  let nu := compute_needs_update now ttl existing
  let base : ContribRecord :=
    match existing with
    | some r => r
    | none =>
      { username := username, avatar_url := "", contributions := 0,
        last_seen := now, needs_update := true, profile_updated := none,
        profile := none, profile_error := none }
  { base with
    username := username, avatar_url := avatar,
    contributions := contributions, last_seen := now, needs_update := nu,
    profile_updated :=
      if depth = "basic" ∧ nu = true then some now else base.profile_updated }

/-- The selection filter of `update_contributor_profiles` (lines 521-525):
a record is eligible for the detailed-profile pass exactly when its
`needs_update` flag is set. -/
def eligible_for_update (r : ContribRecord) : Bool := r.needs_update

/-- One per-contributor step of `update_contributor_profiles` (lines
530-583): on a successful fetch the detailed fields are stored and the record
marked fresh; on any failure the record is marked fresh anyway
(`profile_updated := now`, `needs_update := false`) with the error reason
recorded in `profile_error`. -/
def update_profile_step (now : ℚ) (r : ContribRecord)
    (fetch : Except String Profile) : ContribRecord :=
  match fetch with
  | .ok p =>
    { r with
      profile := some p, profile_updated := some now, needs_update := false }
  | .error e =>
    { r with
      profile_updated := some now, needs_update := false,
      profile_error := some e }

end Contributors

/-- C6 counterexample: under the default profile depth `basic` and the 7-day
TTL (604800 s), the first observation of a contributor with no cached record
stores `profile_updated = now` together with `needs_update = true`, so on a
profile-update pass one hour later — well inside the TTL — the record is
selected and the contributor is fetched in detail, although its
`profile_updated` lies within the TTL. -/
theorem contributor_ttl_cex :
    (Contributors.store_basic "basic" 0 604800 "alice" "a.png" 5 none).profile_updated
      = some 0 ∧
    ((3600 : ℚ) - 0 < 604800) ∧
    Contributors.eligible_for_update
        (Contributors.store_basic "basic" 0 604800 "alice" "a.png" 5 none) = true := by
  refine ⟨?_, by norm_num, ?_⟩ <;>
    simp [Contributors.store_basic, Contributors.compute_needs_update,
      Contributors.eligible_for_update]

/-- C6 (amended): a record is eligible for the detailed pass exactly when its
stored `needs_update` flag is true; the basic pass recomputes that flag as
true iff no record exists, the record has no `profile_updated`, or
`now - profile_updated ≥ TTL` — the previously stored flag is not consulted;
a record that went through the detailed pass is ineligible and stays
ineligible under basic observations within the TTL; but under the default
`basic` profile depth a newly observed contributor carries
`needs_update = true` together with a fresh `profile_updated` and is
detail-fetched although inside the TTL. -/
theorem contributor_ttl_spec (depth : String) (now now2 ttl : ℚ)
    (u a u2 a2 : String) (c c2 : Int) (r : Contributors.ContribRecord)
    (f : Except String Contributors.Profile) (pu : ℚ) :
    (Contributors.compute_needs_update now ttl none = true) ∧
    (r.profile_updated = none →
      Contributors.compute_needs_update now ttl (some r) = true) ∧
    (r.profile_updated = some pu →
      (Contributors.compute_needs_update now ttl (some r) = true ↔ ttl ≤ now - pu)) ∧
    (Contributors.eligible_for_update (Contributors.update_profile_step now r f) = false) ∧
    (now2 - now < ttl →
      Contributors.eligible_for_update
        (Contributors.store_basic depth now2 ttl u2 a2 c2
          (some (Contributors.update_profile_step now r f))) = false) ∧
    ((Contributors.store_basic "basic" now ttl u a c none).needs_update = true ∧
      (Contributors.store_basic "basic" now ttl u a c none).profile_updated = some now) := by
  refine ⟨rfl, ?_, ?_, ?_, ?_, ?_, ?_⟩
  · intro h
    simp [Contributors.compute_needs_update, h]
  · intro h
    simp only [Contributors.compute_needs_update, h]
    simp [not_lt]
  · cases f <;> rfl
  · intro h
    cases f <;>
      simp [Contributors.store_basic, Contributors.eligible_for_update,
        Contributors.update_profile_step, Contributors.compute_needs_update, h]
  · simp [Contributors.store_basic, Contributors.compute_needs_update]
  · simp [Contributors.store_basic, Contributors.compute_needs_update]

/-- Concrete record for the contributor-cache witness. -/
def rC6 : Contributors.ContribRecord :=
  { username := "bob", avatar_url := "b.png", contributions := 7,
    last_seen := 0, needs_update := true, profile_updated := none,
    profile := none, profile_error := none }

/-- Concrete detailed profile for the contributor-cache witness. -/
def pC6 : Contributors.Profile :=
  { name := "Bob", followers := 12, public_repos := 3 }

/-- Witness: a contributor detail-fetched at time 0 and observed again one
hour later (TTL 7 days) is not eligible for another detailed fetch. -/
theorem contributor_ttl_spec_witness :
    Contributors.eligible_for_update
        (Contributors.store_basic "full" 3600 604800 "bob" "b.png" 7
          (some (Contributors.update_profile_step 0 rC6 (.ok pC6)))) = false :=
  (contributor_ttl_spec "full" 0 3600 604800 "bob" "b.png" "bob" "b.png" 7 7
    rC6 (.ok pC6) 0).2.2.2.2.1 (by norm_num)

/-- C9: when the detailed-profile fetch for a contributor fails, the record
is still marked updated (`profile_updated` set to the current time,
`needs_update` cleared) with the error reason recorded, so the record is no
longer eligible for the detailed pass and cannot consume update budget again
until the flag is re-set. -/
theorem update_profile_failure_spec (now : ℚ) (r : Contributors.ContribRecord)
    (e : String) :
    (Contributors.update_profile_step now r (.error e)).needs_update = false ∧
    (Contributors.update_profile_step now r (.error e)).profile_updated = some now ∧
    (Contributors.update_profile_step now r (.error e)).profile_error = some e ∧
    Contributors.eligible_for_update
      (Contributors.update_profile_step now r (.error e)) = false :=
  ⟨rfl, rfl, rfl, rfl⟩

namespace Registry

/-- Python `str.rstrip(chars)`: strip every trailing character in the set. -/
def rstripChars (p : Char → Bool) (l : List Char) : List Char :=
  (l.reverse.dropWhile p).reverse

/-- Fuel-indexed splitting of a character list on a (non-empty) separator,
matching Python `str.split(sep)`.  The fuel, set to the input length by
`splitOnL`, dominates the number of characters consumed, so the exhaustion
branch is unreachable. -/
def splitOnAux (sep : List Char) : Nat → List Char → List Char → List (List Char)
  | 0, _, acc => [acc.reverse]
  | _ + 1, [], acc => [acc.reverse]
  | fuel + 1, c :: rest, acc =>
    if sep.isPrefixOf (c :: rest) then
      acc.reverse :: splitOnAux sep fuel ((c :: rest).drop sep.length) []
    else
      splitOnAux sep fuel rest (c :: acc)

/-- Python `str.split(sep)` on character lists. -/
def splitOnL (sep l : List Char) : List (List Char) :=
  splitOnAux sep l.length l []

/-- Head of a split result (a split result is never empty). -/
def headDL (ls : List (List Char)) : List Char := ls.headD []

/-- Python `path.strip('/')` followed by `split('/')`, applied to components
already split on `'/'`: drop empty components at both ends, keep inner
ones. -/
def stripEmptyEnds (parts : List (List Char)) : List (List Char) :=
  ((parts.dropWhile List.isEmpty).reverse.dropWhile List.isEmpty).reverse

/-- `_parse_github_url` (crypto_github_collector_v4.py lines 236-256):
`rstrip('/')`, `rstrip('.git')` (a character-set strip in Python), cut at
`/tree/` or `/blob/` (splitting and keeping the first part is a no-op when
the separator is absent), then `urlparse`: the scheme precedes `://`, the
netloc runs to the next `/`, query (`?`) and fragment (`#`) do not belong to
the path; accept only netloc `github.com` with at least two path segments
after stripping surrounding slashes, returning (owner, repository name). -/
def parse_github_url (url : String) : Option (String × String) :=
  let u0 := rstripChars (fun c => c == '/') url.toList
  let u1 := rstripChars (fun c => c == '.' || c == 'g' || c == 'i' || c == 't') u0
  let u2 := headDL (splitOnL "/tree/".toList u1)
  let u3 := headDL (splitOnL "/blob/".toList u2)
  match splitOnL "://".toList u3 with
  | _ :: rest1 =>
    match rest1 with
    | [] => none
    | _ =>
      let rest := List.intercalate "://".toList rest1
      let rest := headDL (splitOnL ['#'] rest)
      let rest := headDL (splitOnL ['?'] rest)
      match splitOnL ['/'] rest with
      | netloc :: pathParts =>
        if netloc = "github.com".toList then
          match stripEmptyEnds pathParts with
          | a :: b :: _ => some (String.mk a, String.mk b)
          | _ => none
        else none
      | [] => none
  | [] => none

/-- A monitoring target built by `_load_crypto_repositories` (lines 209-217).
The `project_name` and `symbol` fields only copy catalog data and are
omitted. -/
structure Target where
  owner : String
  name : String
  coin_id : String
  is_primary : Bool
  priority : String
deriving Repr, DecidableEq

/-- The guard of line 204: `if not repo_url or not
repo_url.startswith('https://github.com/'): continue`. -/
def usable_url (url : String) : Bool :=
  !url.toList.isEmpty && "https://github.com/".toList.isPrefixOf url.toList

/-- The body of the URL loop of `_load_crypto_repositories` (lines 203-217)
for the entry with ORIGINAL enumeration index `iu.1`: unusable URLs are
skipped; a parse result passes the `if owner and repo_name:` truthiness guard
of line 208 only when both components are non-empty (a parse failure yields
`(None, None)`, also falsy), and only then a target is built, primary exactly
when the original index is 0. -/
def target_of (coin_id : String) (iu : Nat × String) : Option Target :=
  if usable_url iu.2 then
    match parse_github_url iu.2 with
    | some onr =>
      if onr.1 ≠ "" ∧ onr.2 ≠ "" then
        some { owner := onr.1, name := onr.2, coin_id := coin_id,
               is_primary := decide (iu.1 = 0),
               priority := if iu.1 = 0 then "primary" else "secondary" }
      else none
    | none => none
  else none

/-- The URL loop of `_load_crypto_repositories` for one project: enumerate
the catalog's URL list and keep the parsed targets. -/
def load_crypto_repositories (coin_id : String) (repos_info : List String) :
    List Target :=
  repos_info.enum.filterMap (target_of coin_id)

/-- Every index produced by `enumFrom n` is at least `n`. -/
theorem enumFrom_fst_ge (l : List String) :
    ∀ (n : Nat) (iu : Nat × String), iu ∈ List.enumFrom n l → n ≤ iu.1 := by
  induction l with
  | nil => intro n iu h; cases h
  | cons x xs ih =>
    intro n iu h
    rw [List.enumFrom] at h
    rcases List.mem_cons.mp h with rfl | h2
    · exact le_refl n
    · exact le_trans (Nat.le_succ n) (ih (n + 1) iu h2)

/-- A target built from a positive original index is never primary. -/
theorem target_of_not_primary (coin : String) (iu : Nat × String) (t : Target)
    (hpos : 1 ≤ iu.1) (h : target_of coin iu = some t) :
    t.is_primary = false := by
  rw [target_of] at h
  by_cases hu : usable_url iu.2
  · rw [if_pos hu] at h
    cases hp : parse_github_url iu.2 with
    | none => rw [hp] at h; cases h
    | some onr =>
      rw [hp] at h
      dsimp only at h
      by_cases hne : onr.1 ≠ "" ∧ onr.2 ≠ ""
      · rw [if_pos hne] at h
        simp only [Option.some_inj] at h
        rw [← h]
        simp
        omega
      · rw [if_neg hne] at h
        cases h
  · rw [if_neg hu] at h
    cases h

/-- No target built from the tail of the URL list (original indices 1 and
up) is primary. -/
theorem tail_targets_not_primary (coin : String) (rest : List String) :
    ∀ t ∈ (List.enumFrom 1 rest).filterMap (target_of coin),
      t.is_primary = false := by
  intro t ht
  obtain ⟨iu, hmem, hsome⟩ := List.mem_filterMap.mp ht
  exact target_of_not_primary coin iu t (enumFrom_fst_ge rest 1 iu hmem) hsome

end Registry

/-- C8 counterexample: for a project whose listed URLs are a GitLab URL
followed by a GitHub URL, the sole target built from the first GitHub-style
URL is marked secondary, not primary, because primaryness is tied to the
original list index (0), not to the first URL surviving the drop. -/
theorem primary_first_url_cex :
    Registry.load_crypto_repositories "eth"
        ["https://gitlab.com/x/y", "https://github.com/a/b"]
      = [{ owner := "a", name := "b", coin_id := "eth", is_primary := false,
           priority := "secondary" }] ∧
    Registry.usable_url "https://gitlab.com/x/y" = false ∧
    Registry.usable_url "https://github.com/a/b" = true ∧
    Registry.parse_github_url "https://github.com/a/b" = some ("a", "b") := by
  refine ⟨?_, ?_, ?_, ?_⟩ <;> decide

/-- C8 (amended): a target is primary exactly when it is built from position
0 of the project's URL list; when the first listed URL is usable — non-empty,
prefixed `https://github.com/`, and parsing to a non-empty owner and a
non-empty repository name (the `if owner and repo_name` guard of line 208) —
it yields the unique primary target and every other target is secondary;
when the first listed URL is dropped for any of these reasons (empty entry,
non-GitHub host, unparseable path, or an empty parsed component), the project
has no primary target at all — the dropped URL still shifts primaryness,
which never falls to the next surviving URL. -/
theorem primary_iff_index_zero (coin u : String) (rest : List String)
    (o r : String) :
    (Registry.usable_url u = true → Registry.parse_github_url u = some (o, r) →
      o ≠ "" → r ≠ "" →
      Registry.load_crypto_repositories coin (u :: rest)
        = { owner := o, name := r, coin_id := coin, is_primary := true,
            priority := "primary" }
          :: (List.enumFrom 1 rest).filterMap (Registry.target_of coin) ∧
      ∀ t ∈ (List.enumFrom 1 rest).filterMap (Registry.target_of coin),
        t.is_primary = false) ∧
    ((Registry.usable_url u = false ∨ Registry.parse_github_url u = none ∨
        (Registry.parse_github_url u = some (o, r) ∧ (o = "" ∨ r = ""))) →
      ∀ t ∈ Registry.load_crypto_repositories coin (u :: rest),
        t.is_primary = false) := by
  have henum : (u :: rest).enum = (0, u) :: List.enumFrom 1 rest := rfl
  constructor
  · intro hu hp ho hr
    constructor
    · rw [Registry.load_crypto_repositories, henum, List.filterMap_cons]
      have hhead : Registry.target_of coin (0, u)
          = some { owner := o, name := r, coin_id := coin, is_primary := true,
                   priority := "primary" } := by
        simp [Registry.target_of, hu, hp, ho, hr]
      rw [hhead]
    · exact Registry.tail_targets_not_primary coin rest
  · intro h t ht
    rw [Registry.load_crypto_repositories, henum, List.filterMap_cons] at ht
    have hhead : Registry.target_of coin (0, u) = none := by
      rcases h with h | h | ⟨hp, he⟩
      · simp [Registry.target_of, h]
      · simp [Registry.target_of, h]
      · rcases he with he | he <;> simp [Registry.target_of, hp, he]
    rw [hhead] at ht
    exact Registry.tail_targets_not_primary coin rest t ht

/-- Witness: a project whose single listed URL is a GitHub URL parsing to a
non-empty owner and name gets exactly one target, marked primary. -/
theorem primary_iff_index_zero_witness :
    Registry.load_crypto_repositories "eth" ["https://github.com/a/b"]
      = [{ owner := "a", name := "b", coin_id := "eth", is_primary := true,
           priority := "primary" }] := by
  have h :=
    ((primary_iff_index_zero "eth" "https://github.com/a/b" [] "a" "b").1
      (by decide) (by decide) (by decide) (by decide)).1
  exact h

namespace Aggregator

/-- One raw snapshot as consumed by the aggregation pipeline of
`create_daily_aggregations` (crypto_github_collector_v4.py lines 669-728):
only the fields the pipeline reads. -/
structure RawSnap where
  timestamp : ℚ
  coin_id : String
  owner : String
  name : String
  stars : Int
  forks : Int
  commits_last_24h : Int
  unique_contributors_7d : ℚ
  total_contributors : Int
deriving Repr, DecidableEq

/-- Model of `$dateToString` with format `%Y-%m-%d`: the calendar date of a
timestamp, as a day number. -/
def dayOf (t : ℚ) : Int := ⌊t / 86400⌋

/-- The composite grouping key: calendar date, project id and `owner/name`
(the `_id` concatenation `coin_id + '_' + repo_key + '_' + date`). -/
structure AggKey where
  date : Int
  coin_id : String
  repo_key : String
deriving Repr, DecidableEq

/-- Key of a snapshot. -/
def keyOf (s : RawSnap) : AggKey :=
  { date := dayOf s.timestamp, coin_id := s.coin_id,
    repo_key := s.owner ++ "/" ++ s.name }

/-- One DailyAggregate document (the `metrics` of the `$project` stage).
`Option` fields are null on an empty pushed array, which cannot happen for a
group produced by `$group`. -/
structure AggDoc where
  key : AggKey
  stars_start : Option Int
  stars_end : Option Int
  forks_start : Option Int
  forks_end : Option Int
  max_commits_24h : Option Int
  avg_contributors_7d : Option ℚ
  total_contributors : Option Int
deriving Repr, DecidableEq

/-- `$max` of a pushed array. -/
def listMaxI : List Int → Option Int
  | [] => none
  | x :: xs => some (xs.foldl max x)

/-- `$avg` of a pushed array. -/
def listAvg (l : List ℚ) : Option ℚ :=
  match l with
  | [] => none
  | _ => some (l.sum / l.length)

/-- The snapshots of one group, in stream order. -/
def groupOf (snaps : List RawSnap) (k : AggKey) : List RawSnap :=
  snaps.filter (fun s => decide (keyOf s = k))

/-- The document produced for one group: first/last pushed stars and forks
(`$arrayElemAt` 0 and -1), `$max` of the 24-hour commit counts and of the
total contributor counts, `$avg` of the 7-day unique-contributor counts. -/
def mkAggDoc (snaps : List RawSnap) (k : AggKey) : AggDoc :=
  let g := groupOf snaps k
  { key := k,
    stars_start := (g.map (fun s => s.stars)).head?,
    stars_end := (g.map (fun s => s.stars)).getLast?,
    forks_start := (g.map (fun s => s.forks)).head?,
    forks_end := (g.map (fun s => s.forks)).getLast?,
    max_commits_24h := listMaxI (g.map (fun s => s.commits_last_24h)),
    avg_contributors_7d := listAvg (g.map (fun s => s.unique_contributors_7d)),
    total_contributors := listMaxI (g.map (fun s => s.total_contributors)) }

/-- The distinct group keys of the snapshot stream, in first-occurrence
order. -/
def keysOf (snaps : List RawSnap) : List AggKey :=
  snaps.foldl (fun ks s => if keyOf s ∈ ks then ks else ks ++ [keyOf s]) []

/-- `create_daily_aggregations`: run the `$match`/`$group`/`$project`
pipeline over the raw snapshots of the window and emit one document per
(date, coin_id, repo_key) group.  A deterministic pure function of the
window's snapshot stream. -/
def create_daily_aggregations (snaps : List RawSnap) : List AggDoc :=
  (keysOf snaps).map (mkAggDoc snaps)

/-- The daily-aggregates collection, seen as a map from composite key to
stored document. -/
abbrev AggStore := AggKey → Option AggDoc

/-- `replace_one({'_id': doc['_id']}, doc, upsert=True)` (lines 724-726):
replace the document stored under the composite key.
`chart_aggregator.create_daily_aggregations` performs the equivalent
`UpdateOne` upsert with a `$set` of every produced field. -/
def upsertAgg (store : AggStore) (d : AggDoc) : AggStore :=
  fun k => if k = d.key then some d else store k

/-- Upsert every produced document, in order. -/
def upsertAll (store : AggStore) (ds : List AggDoc) : AggStore :=
  ds.foldl upsertAgg store

/-- The last document of `ds` carrying key `k`. -/
def lastFor (ds : List AggDoc) (k : AggKey) : Option AggDoc :=
  ds.foldl (fun acc d => if d.key = k then some d else acc) none

theorem lastFor_aux (k : AggKey) (tl : List AggDoc) :
    ∀ init : Option AggDoc,
      tl.foldl (fun acc d => if d.key = k then some d else acc) init
        = match lastFor tl k with
          | some d => some d
          | none => init := by
  induction tl with
  | nil => intro init; rfl
  | cons d tl ih =>
    intro init
    rw [List.foldl_cons]
    rw [ih]
    have hrhs : lastFor (d :: tl) k
        = match lastFor tl k with
          | some x => some x
          | none => if d.key = k then some d else none := by
      rw [lastFor, List.foldl_cons]
      exact ih (if d.key = k then some d else none)
    rw [hrhs]
    cases h : lastFor tl k with
    | some x => rfl
    | none => by_cases hk : d.key = k <;> simp [hk]

theorem upsertAll_apply (ds : List AggDoc) (k : AggKey) :
    ∀ store : AggStore,
      upsertAll store ds k
        = match lastFor ds k with
          | some d => some d
          | none => store k := by
  induction ds with
  | nil => intro store; rfl
  | cons d tl ih =>
    intro store
    rw [upsertAll, List.foldl_cons]
    have hl : upsertAll (upsertAgg store d) tl k
        = match lastFor tl k with
          | some x => some x
          | none => upsertAgg store d k := ih (upsertAgg store d)
    rw [show tl.foldl upsertAgg (upsertAgg store d) = upsertAll (upsertAgg store d) tl from rfl,
      hl]
    have hrhs : lastFor (d :: tl) k
        = match lastFor tl k with
          | some x => some x
          | none => if d.key = k then some d else none := by
      rw [lastFor, List.foldl_cons]
      exact lastFor_aux k tl (if d.key = k then some d else none)
    rw [hrhs]
    cases h : lastFor tl k with
    | some x => rfl
    | none =>
      by_cases hk : d.key = k
      · simp [upsertAgg, hk]
      · simp [upsertAgg, hk]
        intro hkk
        exact absurd hkk.symm hk

end Aggregator

/-- C7: the daily aggregation is a deterministic pure function of the raw
snapshots in the window, and every produced document is upserted by its
composite (project, repo, date) key with replace semantics, so running the
aggregation twice over the same window with unchanged raw data leaves the
stored aggregates exactly as after the first run — repeated runs converge
instead of accumulating. -/
theorem create_daily_aggregations_idempotent (snaps : List Aggregator.RawSnap)
    (store : Aggregator.AggStore) :
    Aggregator.upsertAll
        (Aggregator.upsertAll store (Aggregator.create_daily_aggregations snaps))
        (Aggregator.create_daily_aggregations snaps)
      = Aggregator.upsertAll store (Aggregator.create_daily_aggregations snaps) := by
  funext k
  rw [Aggregator.upsertAll_apply, Aggregator.upsertAll_apply]
  cases h : Aggregator.lastFor (Aggregator.create_daily_aggregations snaps) k with
  | some d => rfl
  | none => rfl
